import Mathlib

/-!
Verification of the Solar Sentinel Suite risk-scoring and classification
rules, shallowly embedded from the TypeScript source.  JavaScript numbers
are modelled as exact rationals (`ℚ`), `Date.now()` as an ambient integer
parameter, and `Math.random()` as an explicit stream `ℕ → ℚ` of draws.
-/

/-- The six tracked instrument identifiers (STEP, SUIT, PAPA, MAG,
SoLEXS, SWISS), from the dashboard's mock data record and the model
registry in `src/utils/modelLoader.ts`. -/
inductive InstrumentId
  | STEP | SUIT | PAPA | MAG | SoLEXS | SWISS
deriving DecidableEq, Repr

/-- One tick's worth of readings, one per instrument, mirroring the
object produced by `generateMockData` in `SolarSentinelDashboard.tsx`
(`step`, `suit`, `papa`, `mag`, `solexs`, `swiss`). -/
structure Readings where
  step : ℚ
  suit : ℚ
  papa : ℚ
  mag : ℚ
  solexs : ℚ
  swiss : ℚ
deriving DecidableEq

/-- `const avgReading = (newData.step + newData.suit + newData.papa +
newData.mag + newData.solexs + newData.swiss) / 6;`
(`SolarSentinelDashboard.tsx`, line 75). -/
def avgReading (r : Readings) : ℚ :=
  (r.step + r.suit + r.papa + r.mag + r.solexs + r.swiss) / 6

/-- `const riskScore = Math.min(Math.max((avgReading - 40) / 60 * 100, 0), 100);`
(`SolarSentinelDashboard.tsx`, line 76). -/
def riskScore (r : Readings) : ℚ :=
  min (max ((avgReading r - 40) / 60 * 100) 0) 100

/-- Spec-side clamp, written from the spec's words
`score = clamp((avg - 40) / 60 * 100, 0, 100)`, to compare with the
source's `Math.min(Math.max(..))` composition. -/
def clampSpec (x lo hi : ℚ) : ℚ :=
  if x < lo then lo else if hi < x then hi else x

/-- Risk level labels returned by `getRiskLevel`. -/
inductive RiskLabel
  | LOW | MODERATE | HIGH | EXTREME
deriving DecidableEq, Repr

/-- `getRiskLevel` from `SolarSentinelDashboard.tsx` lines 86-91 (the
identical function also appears in the hardcoded dashboard variant):
`if (risk < 30) return LOW; if (risk < 60) return MODERATE;
if (risk < 85) return HIGH; return EXTREME;`. -/
def getRiskLevel (risk : ℚ) : RiskLabel :=
  if risk < 30 then .LOW
  else if risk < 60 then .MODERATE
  else if risk < 85 then .HIGH
  else .EXTREME

/-- Severity rank of a risk label, for stating monotonicity
(LOW < MODERATE < HIGH < EXTREME). -/
def levelRank : RiskLabel → ℕ
  | .LOW => 0
  | .MODERATE => 1
  | .HIGH => 2
  | .EXTREME => 3

/-- The `classification` payload of `ModelPrediction` in
`src/utils/modelLoader.ts`. -/
structure Classification where
  cmeType : String
  confidence : ℚ
  intensity : String
  earthDirected : Bool
deriving DecidableEq

/-- The classification branch of `predictWithModel`
(`modelLoader.ts` lines 91-100):
`cmeType: value > 80 ? "Fast Halo CME" : value > 60 ? "Slow CME" : "No Event",
confidence: Math.min(95, 70 + value * 0.3),
intensity: value > 75 ? "High" : value > 50 ? "Medium" : "Low",
earthDirected: value > 70`. -/
def classifyPrediction (value : ℚ) : Classification where
  cmeType := if value > 80 then "Fast Halo CME"
             else if value > 60 then "Slow CME" else "No Event"
  confidence := min 95 (70 + value * (3 / 10))
  intensity := if value > 75 then "High"
               else if value > 50 then "Medium" else "Low"
  earthDirected := decide (value > 70)

/-- The `detection` payload of `ModelPrediction` in
`src/utils/modelLoader.ts`. -/
structure Detection where
  isEvent : Bool
  confidence : ℚ
  threshold : ℚ
deriving DecidableEq

/-- The detection branch of `predictWithModel` (`modelLoader.ts`
lines 101-107): `isEvent: value > 65,
confidence: Math.min(98, 60 + value * 0.4), threshold: 65`. -/
def detectPrediction (value : ℚ) : Detection where
  isEvent := decide (value > 65)
  confidence := min 98 (60 + value * (2 / 5))
  threshold := 65

/-- Tri-state detection status produced for each instrument card, from
`generateInstrumentData` (`SolarSentinelDashboard.tsx` line 52) and the
identical line 63 of `generateAdityaInstrumentData`:
`status: value > 80 ? "ACTIVE" : value > 60 ? "MONITORING" : "CLEAR"`. -/
inductive DetStatus
  | ACTIVE | MONITORING | CLEAR
deriving DecidableEq, Repr

/-- The status expression itself: `value > 80 ? "ACTIVE" :
value > 60 ? "MONITORING" : "CLEAR"`.  The surrounding record also
carries a fixed `threshold: 75` field which this expression does not
read. -/
def detectionStatus (value : ℚ) : DetStatus :=
  if value > 80 then .ACTIVE
  else if value > 60 then .MONITORING
  else .CLEAR

/-- One point of the `timeSeries` branch of `predictWithModel`
(`modelLoader.ts` lines 110-114).  `now` models `Date.now()`, `rand`
the successive `Math.random()` draws (two per point: draw `2*i` for the
value, draw `2*i+1` for the confidence), and `sinv i` models
`Math.sin(i * 0.1)`, an opaque real-valued sample. -/
structure ForecastPoint where
  time : ℤ
  value : ℚ
  confidence : ℚ
deriving DecidableEq

/-- `{ time: Date.now() + (i * 60000),
value: instrumentData.value + Math.sin(i * 0.1) * 10 + (Math.random() - 0.5) * 5,
confidence: Math.max(0.7, Math.min(0.95, 0.8 + (Math.random() - 0.5) * 0.2)) }`. -/
def forecastPoint (value : ℚ) (now : ℤ) (rand sinv : ℕ → ℚ) (i : ℕ) : ForecastPoint where
  time := now + i * 60000
  value := value + sinv i * 10 + (rand (2 * i) - 1 / 2) * 5
  confidence := max (7 / 10) (min (19 / 20) (4 / 5 + (rand (2 * i + 1) - 1 / 2) * (1 / 5)))

/-- `predictions: Array.from({length: 24}, (_, i) => ...)`
(`modelLoader.ts` lines 110-114). -/
def predictTimeSeries (value : ℚ) (now : ℤ) (rand sinv : ℕ → ℚ) : List ForecastPoint :=
  (List.range 24).map (forecastPoint value now rand sinv)

/-- The `timeSeries` payload of `ModelPrediction`: the forecast points
together with `horizon: 24`. -/
structure TimeSeriesPrediction where
  predictions : List ForecastPoint
  horizon : ℕ
deriving DecidableEq

/-- The three model kinds `predictWithModel` dispatches on. -/
inductive ModelType
  | classification | detection | timeSeries
deriving DecidableEq

/-- `ModelPrediction` from `modelLoader.ts`: each branch of the mock
fills exactly one optional field. -/
structure ModelPrediction where
  classification : Option Classification := none
  detection : Option Detection := none
  timeSeries : Option TimeSeriesPrediction := none
deriving DecidableEq

/-- `predictWithModel` (`modelLoader.ts` lines 80-121), with the
ambient clock and random stream made explicit: the mock returns
`mockPredictions[modelType]`, whose classification and detection
entries depend only on `instrumentData.value`. -/
def predictWithModel (value : ℚ) (mt : ModelType) (now : ℤ) (rand sinv : ℕ → ℚ) :
    ModelPrediction :=
  match mt with
  | .classification => { classification := some (classifyPrediction value) }
  | .detection => { detection := some (detectPrediction value) }
  | .timeSeries =>
      { timeSeries := some ⟨predictTimeSeries value now rand sinv, 24⟩ }

/-- A single instrument reading as in the spec's data model:
instrument identifier plus scalar value. -/
structure InstrumentReading where
  instrumentId : InstrumentId
  value : ℚ
deriving DecidableEq

/-- Risk computation failure. -/
inductive RiskError
  | MissingInstrumentError
deriving DecidableEq, Repr

/-- Risk index: clamped score plus discrete level. -/
structure RiskIndex where
  score : ℚ
  level : RiskLabel
deriving DecidableEq

/-- The list of all six tracked instrument ids. -/
def allInstruments : List InstrumentId :=
  [.STEP, .SUIT, .PAPA, .MAG, .SoLEXS, .SWISS]

/-- Modelled from the spec: the defensive `computeRisk` contract of
§4.1/§7 is absent from the mock source (the spec notes the mock "does
not currently enforce" it); all six instrument ids must be present,
otherwise the computation fails with `MissingInstrumentError` and no
partial score is produced.  The scoring formula itself is the source's
(`SolarSentinelDashboard.tsx` lines 75-76). -/
def computeRisk (readings : List InstrumentReading) : Except RiskError RiskIndex :=
  if allInstruments.all (fun id => readings.any (fun r => r.instrumentId = id)) then
    let avg := (readings.map (fun r => r.value)).sum / readings.length
    let score := min (max ((avg - 40) / 60 * 100) 0) 100
    .ok ⟨score, getRiskLevel score⟩
  else
    .error .MissingInstrumentError

/-- Helper: the source's `Math.min(Math.max(x, 0), 100)` composition
equals the spec's clamp to `[0, 100]`. -/
theorem minmax_eq_clampSpec (x : ℚ) : min (max x 0) 100 = clampSpec x 0 100 := by
  unfold clampSpec
  split_ifs with h1 h2
  · rw [max_eq_right h1.le]
    exact min_eq_left (by norm_num)
  · rw [max_eq_left (not_lt.mp h1)]
    exact min_eq_right h2.le
  · rw [max_eq_left (not_lt.mp h1)]
    exact min_eq_left (not_lt.mp h2)

/-- C1: for every set of six instrument readings, the risk score is
`clamp((mean(values) - 40) / 60 * 100, 0, 100)`; in particular
mean = 40 gives score 0, mean = 70 gives score 50, and mean = 100
gives score 100. -/
theorem riskScore_clamp_spec (r : Readings) :
    riskScore r = clampSpec ((avgReading r - 40) / 60 * 100) 0 100 ∧
    (avgReading r = 40 → riskScore r = 0) ∧
    (avgReading r = 70 → riskScore r = 50) ∧
    (avgReading r = 100 → riskScore r = 100) := by
  refine ⟨minmax_eq_clampSpec _, fun h => ?_, fun h => ?_, fun h => ?_⟩ <;>
    simp only [riskScore, h] <;> norm_num

/-- C1 witness: the constant reading set 70 has mean 70 and score 50. -/
theorem riskScore_clamp_spec_witness :
    riskScore ⟨70, 70, 70, 70, 70, 70⟩ = 50 :=
  (riskScore_clamp_spec ⟨70, 70, 70, 70, 70, 70⟩).2.2.1 (by norm_num [avgReading])

/-- C2: the risk level is the step function of the score with exclusive
upper bounds: score < 30 gives LOW, score < 60 gives MODERATE,
score < 85 gives HIGH, otherwise EXTREME. -/
theorem getRiskLevel_steps (s : ℚ) :
    (s < 30 → getRiskLevel s = .LOW) ∧
    (30 ≤ s → s < 60 → getRiskLevel s = .MODERATE) ∧
    (60 ≤ s → s < 85 → getRiskLevel s = .HIGH) ∧
    (85 ≤ s → getRiskLevel s = .EXTREME) := by
  unfold getRiskLevel
  refine ⟨fun h => ?_, fun h1 h2 => ?_, fun h1 h2 => ?_, fun h => ?_⟩ <;>
    split_ifs <;> first | rfl | linarith

/-- C2 witness: score 45 is MODERATE. -/
theorem getRiskLevel_steps_witness : getRiskLevel 45 = .MODERATE :=
  (getRiskLevel_steps 45).2.1 (by norm_num) (by norm_num)

/-- C3: the classifier returns cmeType "Fast Halo CME" for value > 80,
"Slow CME" for 60 < value ≤ 80 and "No Event" otherwise; earthDirected
holds exactly when value > 70; confidence equals
min(95, 70 + 0.3 * value). -/
theorem classifyPrediction_rules (v : ℚ) :
    (80 < v → (classifyPrediction v).cmeType = "Fast Halo CME") ∧
    (60 < v → v ≤ 80 → (classifyPrediction v).cmeType = "Slow CME") ∧
    (v ≤ 60 → (classifyPrediction v).cmeType = "No Event") ∧
    ((classifyPrediction v).earthDirected = true ↔ 70 < v) ∧
    (classifyPrediction v).confidence = min 95 (70 + (3 / 10) * v) := by
  unfold classifyPrediction
  refine ⟨fun h => ?_, fun h1 h2 => ?_, fun h => ?_, ?_, ?_⟩
  · simp only
    split_ifs <;> first | rfl | linarith
  · simp only
    split_ifs <;> first | rfl | linarith
  · simp only
    split_ifs <;> first | rfl | linarith
  · simp [decide_eq_true_iff]
  · simp only [mul_comm]

/-- C3 witness: value 81 yields "Fast Halo CME". -/
theorem classifyPrediction_rules_witness :
    (classifyPrediction 81).cmeType = "Fast Halo CME" :=
  (classifyPrediction_rules 81).1 (by norm_num)

/-- C4 counterexample: at value 78 the claimed rule (Medium whenever
60 < value ≤ 80) fails — the source's `value > 75` branch produces
High. -/
theorem intensity_threshold_cex : (classifyPrediction 78).intensity ≠ "Medium" := by
  have h : (classifyPrediction 78).intensity = "High" := by
    unfold classifyPrediction
    simp only
    rw [if_pos (by norm_num)]
  rw [h]
  decide

/-- C4 amended: intensity is High when value > 75, Medium when
50 < value ≤ 75, and Low otherwise (the source thresholds are 75/50,
not 80/60; the spec's examples 81 → High, 65 → Medium, 30 → Low still
hold). -/
theorem intensity_thresholds_amended (v : ℚ) :
    (75 < v → (classifyPrediction v).intensity = "High") ∧
    (50 < v → v ≤ 75 → (classifyPrediction v).intensity = "Medium") ∧
    (v ≤ 50 → (classifyPrediction v).intensity = "Low") := by
  unfold classifyPrediction
  refine ⟨fun h => ?_, fun h1 h2 => ?_, fun h => ?_⟩ <;>
    simp only <;> split_ifs <;> first | rfl | linarith

/-- C4 witness: value 65 yields Medium, as in the spec's example. -/
theorem intensity_thresholds_amended_witness :
    (classifyPrediction 65).intensity = "Medium" :=
  (intensity_thresholds_amended 65).2.1 (by norm_num) (by norm_num)

/-- C5 counterexample: at value 76 the claimed rule (ACTIVE above the
record's fixed threshold 75) fails — the source condition is
`value > 80`, so 76 is only MONITORING. -/
theorem detectionStatus_cex : detectionStatus 76 ≠ DetStatus.ACTIVE := by
  have h : detectionStatus 76 = DetStatus.MONITORING := by
    unfold detectionStatus
    rw [if_neg (by norm_num), if_pos (by norm_num)]
  rw [h]
  decide

/-- C5 amended: the tri-state status is ACTIVE when value > 80,
MONITORING when 60 < value ≤ 80, and CLEAR otherwise; the record's
`threshold: 75` field is not read by the status expression.  The
spec's examples 61 → MONITORING and 50 → CLEAR still hold, but
76 → MONITORING. -/
theorem detectionStatus_amended (v : ℚ) :
    (80 < v → detectionStatus v = .ACTIVE) ∧
    (60 < v → v ≤ 80 → detectionStatus v = .MONITORING) ∧
    (v ≤ 60 → detectionStatus v = .CLEAR) := by
  unfold detectionStatus
  refine ⟨fun h => ?_, fun h1 h2 => ?_, fun h => ?_⟩ <;>
    split_ifs <;> first | rfl | linarith

/-- C5 witness: value 61 yields MONITORING, as in the spec's example. -/
theorem detectionStatus_amended_witness : detectionStatus 61 = DetStatus.MONITORING :=
  (detectionStatus_amended 61).2.1 (by norm_num) (by norm_num)

/-- C6: if some tracked instrument has no reading in the input set (in
particular when only 5 of the 6 are present), `computeRisk` fails with
`MissingInstrumentError` and returns no partial score. -/
theorem computeRisk_missing_instrument (readings : List InstrumentReading)
    (id : InstrumentId) (h : ∀ r ∈ readings, r.instrumentId ≠ id) :
    computeRisk readings = .error .MissingInstrumentError := by
  unfold computeRisk
  rw [if_neg]
  intro hall
  have hid : id ∈ allInstruments := by cases id <;> simp [allInstruments]
  have hany := List.all_eq_true.mp hall id hid
  rcases List.any_eq_true.mp hany with ⟨r, hr, hre⟩
  exact h r hr (by simpa using hre)

/-- C6 witness: a reading set covering only STEP, SUIT, PAPA, MAG and
SoLEXS (SWISS missing) is rejected. -/
theorem computeRisk_missing_instrument_witness :
    computeRisk [⟨.STEP, 50⟩, ⟨.SUIT, 50⟩, ⟨.PAPA, 50⟩, ⟨.MAG, 50⟩, ⟨.SoLEXS, 50⟩] =
      .error .MissingInstrumentError :=
  computeRisk_missing_instrument _ .SWISS (by decide)

/-- C7: classification and detection predictions are deterministic pure
functions of the reading value: the returned prediction is unchanged
under any ambient clock values, random streams, and sine samples, so
two calls on an identical reading agree (the tri-state
`detectionStatus` takes nothing but the value to begin with). -/
theorem predict_deterministic (v : ℚ) (n₁ n₂ : ℤ) (r₁ r₂ s₁ s₂ : ℕ → ℚ) :
    predictWithModel v .classification n₁ r₁ s₁ = predictWithModel v .classification n₂ r₂ s₂ ∧
    predictWithModel v .detection n₁ r₁ s₁ = predictWithModel v .detection n₂ r₂ s₂ :=
  ⟨rfl, rfl⟩

/-- C8: the 24-step forecast has exactly 24 points, strictly increasing
times, and every point's confidence lies in [0,1] — for every reading
value, clock value, random stream, and sine samples. -/
theorem forecast_spec (v : ℚ) (now : ℤ) (rand sinv : ℕ → ℚ) :
    (predictTimeSeries v now rand sinv).length = 24 ∧
    (predictTimeSeries v now rand sinv).Pairwise (fun p q => p.time < q.time) ∧
    ∀ p ∈ predictTimeSeries v now rand sinv, 0 ≤ p.confidence ∧ p.confidence ≤ 1 := by
  refine ⟨by simp [predictTimeSeries], ?_, ?_⟩
  · unfold predictTimeSeries
    rw [List.pairwise_map]
    refine (List.pairwise_lt_range 24).imp ?_
    intro a b hab
    show (now + a * 60000 : ℤ) < now + b * 60000
    have hab' : (a : ℤ) < b := by exact_mod_cast hab
    omega
  · intro p hp
    rcases List.mem_map.mp hp with ⟨i, hi, rfl⟩
    simp only [forecastPoint]
    constructor
    · exact le_trans (by norm_num) (le_max_left _ _)
    · exact max_le (by norm_num) (le_trans (min_le_left _ _) (by norm_num))

/-- C8 witness: at reading 50, clock 0, constant draws 1/2 and zero
sine samples, the forecast has 24 points and the first point's
confidence is nonnegative. -/
theorem forecast_spec_witness :
    (predictTimeSeries 50 0 (fun _ => 1 / 2) (fun _ => 0)).length = 24 ∧
    0 ≤ (forecastPoint 50 0 (fun _ => 1 / 2) (fun _ => 0) 0).confidence := by
  refine ⟨(forecast_spec 50 0 (fun _ => 1 / 2) (fun _ => 0)).1, ?_⟩
  exact ((forecast_spec 50 0 (fun _ => 1 / 2) (fun _ => 0)).2.2 _
    (List.mem_map.mpr ⟨0, List.mem_range.mpr (by norm_num), rfl⟩)).1

/-- Helper: the risk level's severity rank is monotone in the score. -/
theorem getRiskLevel_mono {s t : ℚ} (h : s ≤ t) :
    levelRank (getRiskLevel s) ≤ levelRank (getRiskLevel t) := by
  unfold getRiskLevel
  split_ifs <;> first | decide | (exfalso; linarith)

/-- The claim's input domain: every reading lies in [0,100]. -/
def readingsInRange (r : Readings) : Prop :=
  0 ≤ r.step ∧ r.step ≤ 100 ∧ 0 ≤ r.suit ∧ r.suit ≤ 100 ∧
  0 ≤ r.papa ∧ r.papa ≤ 100 ∧ 0 ≤ r.mag ∧ r.mag ≤ 100 ∧
  0 ≤ r.solexs ∧ r.solexs ≤ 100 ∧ 0 ≤ r.swiss ∧ r.swiss ≤ 100

/-- C9: for readings in [0,100]^6 the risk score lies in [0,100], and
both the score and the severity rank of the level are monotone
non-decreasing in the mean reading. -/
theorem riskIndex_bounds_monotone (r r' : Readings)
    (hr : readingsInRange r) (hr' : readingsInRange r')
    (h : avgReading r ≤ avgReading r') :
    (0 ≤ riskScore r ∧ riskScore r ≤ 100) ∧
    riskScore r ≤ riskScore r' ∧
    levelRank (getRiskLevel (riskScore r)) ≤ levelRank (getRiskLevel (riskScore r')) := by
  have hmono : riskScore r ≤ riskScore r' := by
    unfold riskScore
    have hx : (avgReading r - 40) / 60 * 100 ≤ (avgReading r' - 40) / 60 * 100 := by
      linarith
    exact min_le_min (max_le_max hx le_rfl) le_rfl
  refine ⟨⟨?_, ?_⟩, hmono, getRiskLevel_mono hmono⟩
  · exact le_min (le_max_right _ _) (by norm_num)
  · exact min_le_right _ _

/-- C9 witness: the constant reading sets 50 and 80 are in range with
means 50 ≤ 80, and the bounds and monotonicity hold there. -/
theorem riskIndex_bounds_monotone_witness :
    (0 ≤ riskScore ⟨50, 50, 50, 50, 50, 50⟩ ∧ riskScore ⟨50, 50, 50, 50, 50, 50⟩ ≤ 100) ∧
    riskScore ⟨50, 50, 50, 50, 50, 50⟩ ≤ riskScore ⟨80, 80, 80, 80, 80, 80⟩ ∧
    levelRank (getRiskLevel (riskScore ⟨50, 50, 50, 50, 50, 50⟩)) ≤
      levelRank (getRiskLevel (riskScore ⟨80, 80, 80, 80, 80, 80⟩)) :=
  riskIndex_bounds_monotone _ _ (by norm_num [readingsInRange])
    (by norm_num [readingsInRange]) (by norm_num [avgReading])

/-- C10 counterexample: at reading value −300 the classification
confidence is min(95, 70 + (−300)·0.3) = −20, outside [0,100]: the
source clamps confidence from above but not from below. -/
theorem confidence_unclamped_cex : (classifyPrediction (-300)).confidence < 0 := by
  unfold classifyPrediction
  simp only
  have h : (70 : ℚ) + (-300) * (3 / 10) = -20 := by norm_num
  rw [h, min_eq_right (by norm_num)]
  norm_num

/-- C10 amended: confidences are clamped from above for every reading
value (classification ≤ 95, detection ≤ 98), and for every reading
value ≥ 0 — including malformed values above 100 — both confidences
lie in [0,100]; a sufficiently negative reading yields a negative
confidence, unclamped below. -/
theorem confidence_clamp_amended (v : ℚ) :
    (classifyPrediction v).confidence ≤ 95 ∧
    (detectPrediction v).confidence ≤ 98 ∧
    (0 ≤ v →
      (0 ≤ (classifyPrediction v).confidence ∧ (classifyPrediction v).confidence ≤ 100) ∧
      (0 ≤ (detectPrediction v).confidence ∧ (detectPrediction v).confidence ≤ 100)) := by
  refine ⟨min_le_left _ _, min_le_left _ _, fun hv => ⟨⟨?_, ?_⟩, ?_, ?_⟩⟩
  · exact le_min (by norm_num) (by linarith)
  · exact le_trans (min_le_left _ _) (by norm_num)
  · exact le_min (by norm_num) (by linarith)
  · exact le_trans (min_le_left _ _) (by norm_num)

/-- C10 witness: at the malformed reading 150 the classification
confidence is within [0,100]. -/
theorem confidence_clamp_amended_witness :
    0 ≤ (classifyPrediction 150).confidence ∧ (classifyPrediction 150).confidence ≤ 100 :=
  ((confidence_clamp_amended 150).2.2 (by norm_num)).1
